import Mathlib

/-!
Verification of the Reddit research CLI's core API layer.

The definitions below are a shallow embedding of the TypeScript source:

* `lib/api.ts` — token lifecycle (`getToken`), request pacing (`apiGet`),
  response mapping (`parsePost`, `parseComment`, `thread`), and the pure
  post utilities (`filterEngagement`).
* `reddit-search.ts` — the CLI filter-application step of `cmdSearch`.
* `lib/cache.ts` — not present in the sources; its store is modelled from
  the specification (see `CacheStore`).

JavaScript truthiness (`x || d`, `if (x)`) is modelled explicitly by the
`jsOr*` / `jsTruthy*` helpers: `undefined`/`null` become `Option.none`,
and the falsy values `""`, `0`, `false` fall back to the default exactly
as `||` does in the source.
-/

/-- JS `v || dflt` for string-valued fields: `undefined`/`null` and the
empty string are falsy. -/
def jsOrStr (v : Option String) (dflt : String) : String :=
  match v with
  | none => dflt
  | some s => if s = "" then dflt else s

/-- JS `v || dflt` for number-valued fields: `undefined`/`null` and `0`
are falsy. -/
def jsOrInt (v : Option Int) (dflt : Int) : Int :=
  match v with
  | none => dflt
  | some n => if n = 0 then dflt else n

/-- JS `v || dflt` for boolean-valued fields. -/
def jsOrBool (v : Option Bool) (dflt : Bool) : Bool :=
  match v with
  | none => dflt
  | some b => if b then b else dflt

/-- JS truthiness of a possibly-absent string (`if (s)`): absent and `""`
are falsy. -/
def jsTruthyOptStr (v : Option String) : Bool :=
  match v with
  | none => false
  | some s => s != ""

/-- JS truthiness of a possibly-absent number (`if (n)`): absent and `0`
are falsy. -/
def jsTruthyOptInt (v : Option Int) : Bool :=
  match v with
  | none => false
  | some n => n != 0

/-! ## Post mapping (`lib/api.ts`: `interface Post`, `parsePost`) -/

/-- The normalized `Post` record (`interface Post` in `lib/api.ts`). -/
structure Post where
  id : String
  title : String
  selftext : String
  author : String
  subreddit : String
  created_utc : Int
  url : String
  permalink : String
  upvotes : Int
  num_comments : Int
  score : Int
  over_18 : Bool
  post_url : String
deriving Repr, DecidableEq

/-- The raw JSON data object of a submission, with the optional fields
that `parsePost` defaults marked `Option`. -/
structure RawPostData where
  id : String
  title : Option String
  selftext : Option String
  author : Option String
  subreddit : String
  created_utc : Int
  url : Option String
  permalink : String
  ups : Option Int
  num_comments : Option Int
  score : Option Int
  over_18 : Option Bool
deriving Repr, DecidableEq

/-- Input shape accepted by `parsePost`: either a "Thing" wrapper
`{kind, data}` or an already-unwrapped data object. A bare data object has
no `data` property, so the source's `raw.data || raw` selects exactly the
branch encoded here. -/
inductive RawPost : Type where
  | thing (kind : String) (data : RawPostData) : RawPost
  | bare (data : RawPostData) : RawPost
deriving Repr, DecidableEq

/-- The source's `const d = raw.data || raw`. -/
def RawPost.unwrap : RawPost → RawPostData
  | .thing _ d => d
  | .bare d => d

/-- `parsePost` from `lib/api.ts`: field-by-field normalization with `||`
defaults, and `post_url` built from the permalink. -/
def parsePost (raw : RawPost) : Post :=
  let d := raw.unwrap
  { id := d.id
    title := jsOrStr d.title ""
    selftext := jsOrStr d.selftext ""
    author := jsOrStr d.author "[deleted]"
    subreddit := d.subreddit
    created_utc := d.created_utc
    url := jsOrStr d.url ""
    permalink := d.permalink
    upvotes := jsOrInt d.ups 0
    num_comments := jsOrInt d.num_comments 0
    score := jsOrInt d.score 0
    over_18 := jsOrBool d.over_18 false
    post_url := "https://reddit.com" ++ d.permalink }

/-! ## Comment mapping (`lib/api.ts`: `interface Comment`, `parseComment`) -/

/-- Shape of a raw node's `replies` field as tested by the source's guard
`d.replies && d.replies.data && d.replies.data.children`:
`absent` = `replies` falsy (missing or `""`), `noData` = object without a
truthy `data`, `noChildren` = `data` without a truthy `children`, and
`listing cs` = a listing whose `children` array is `cs` (a present-but-empty
array is truthy in JS, hence `listing []`). -/
inductive JsReplies (α : Type) : Type where
  | absent : JsReplies α
  | noData : JsReplies α
  | noChildren : JsReplies α
  | listing (children : List α) : JsReplies α
deriving Repr

/-- A raw comment-listing child: the `kind` tag (`"t1"` for a comment,
`"more"` for a load-more placeholder) and the fields of `data` used by
`parseComment`. -/
inductive RawCommentNode : Type where
  | mk (kind : String) (id : String) (body : Option String)
      (author : Option String) (created_utc : Int) (ups : Option Int)
      (score : Option Int) (replies : JsReplies RawCommentNode) : RawCommentNode

def RawCommentNode.kind : RawCommentNode → String
  | .mk k _ _ _ _ _ _ _ => k

def RawCommentNode.replies : RawCommentNode → JsReplies RawCommentNode
  | .mk _ _ _ _ _ _ _ r => r

/-- The normalized `Comment` record (`interface Comment`): `replies` is
optional (`Option`), distinguishing an absent field from an empty list. -/
inductive Comment : Type where
  | mk (id : String) (body : String) (author : String) (created_utc : Int)
      (upvotes : Int) (score : Int) (depth : Nat)
      (replies : Option (List Comment)) : Comment

def Comment.id : Comment → String
  | .mk i _ _ _ _ _ _ _ => i

def Comment.depth : Comment → Nat
  | .mk _ _ _ _ _ _ d _ => d

def Comment.replies : Comment → Option (List Comment)
  | .mk _ _ _ _ _ _ _ r => r

mutual

/-- `parseComment` from `lib/api.ts`: builds the record from `raw.data` at
the ambient depth; when the replies guard passes, sets `replies` to the
children filtered to kind `"t1"` and mapped at `depth + 1` (see
`parseChildren_eq_filter_map`), otherwise leaves the field absent. -/
def parseComment : RawCommentNode → Nat → Comment
  | .mk _kind id body author created_utc ups score replies, depth =>
    .mk id (jsOrStr body "") (jsOrStr author "[deleted]") created_utc
      (jsOrInt ups 0) (jsOrInt score 0) depth
      (match replies with
       | .listing children => some (parseChildren children (depth + 1))
       | _ => none)

/-- The source's `children.filter(c => c.kind === "t1").map(c =>
parseComment(c, depth))`, written as one structural recursion; the lemma
`parseChildren_eq_filter_map` proves it equal to the filter-then-map form. -/
def parseChildren : List RawCommentNode → Nat → List Comment
  | [], _ => []
  | c :: cs, depth =>
    if c.kind = "t1" then parseComment c depth :: parseChildren cs depth
    else parseChildren cs depth

end

/-! ## Thread unwrapping (`lib/api.ts`: `thread`) -/

/-- The two-element array returned by the comments endpoint, reduced to
the parts `thread` reads: `postChildren` = `data[0].data.children`, and
`commentChildren` = `data[1].data?.children` (`none` when `data` or
`children` is missing, matching the source's `|| []`). -/
structure ThreadResponse where
  postChildren : List RawPost
  commentChildren : Option (List RawCommentNode)

/-- The response-mapping tail of `thread` in `lib/api.ts`: the post is
`parsePost(postListing.data.children[0])` and the comments are the second
listing's children filtered to kind `"t1"` and mapped at depth 0. An empty
`postChildren` makes the source crash on `undefined`; that hard failure is
modelled as `none`. -/
def threadMap (resp : ThreadResponse) : Option (Post × List Comment) :=
  match resp.postChildren with
  | [] => none
  | p :: _ =>
    some (parsePost p,
      ((resp.commentChildren.getD []).filter (fun c => c.kind == "t1")).map
        (fun c => parseComment c 0))

/-! ## Token lifecycle (`lib/api.ts`: `getToken`, `getCredentials`) -/

/-- The process-wide mutable token state: `let accessToken: string | null`
and `let tokenExpiry: number`. -/
structure TokenState where
  accessToken : Option String
  tokenExpiry : Int
deriving Repr, DecidableEq

/-- The module-initial state: `accessToken = null`, `tokenExpiry = 0`. -/
def initialTokenState : TokenState :=
  { accessToken := none, tokenExpiry := 0 }

/-- The four environment secrets read by `getCredentials`; `none` models
an unset variable, and `""` is falsy like in the source's check. -/
structure Env where
  clientId : Option String
  clientSecret : Option String
  username : Option String
  password : Option String

structure Credentials where
  clientId : String
  clientSecret : String
  username : String
  password : String

/-- `getCredentials` from `lib/api.ts`: fails when any of the four secrets
is absent or empty. -/
def getCredentials (env : Env) : Except String Credentials :=
  if jsTruthyOptStr env.clientId && jsTruthyOptStr env.clientSecret &&
      jsTruthyOptStr env.username && jsTruthyOptStr env.password then
    .ok
      { clientId := env.clientId.getD ""
        clientSecret := env.clientSecret.getD ""
        username := env.username.getD ""
        password := env.password.getD "" }
  else
    .error "Missing Reddit credentials. Set REDDIT_CLIENT_ID, REDDIT_CLIENT_SECRET, REDDIT_USERNAME, REDDIT_PASSWORD"

/-- The token endpoint's JSON body (`interface TokenResponse`) together
with the HTTP outcome of the exchange. -/
structure AuthResponse where
  ok : Bool
  access_token : String
  token_type : String
  expires_in : Int
  scope : String
  errorBody : String

/-- Observable network events of one `apiGet` invocation. -/
inductive ApiEvent : Type where
  | authRequest : ApiEvent
  | dataRequest : ApiEvent
  | pace (ms : Nat) : ApiEvent
deriving Repr, DecidableEq

/-- The source's `5 * 60 * 1000` safety margin in `getToken`. -/
def TOKEN_MARGIN_MS : Int := 5 * 60 * 1000

/-- `getToken` from `lib/api.ts`, with time and the auth response passed
explicitly: returns the cached token when it is truthy and
`now < tokenExpiry - 5min`; otherwise checks credentials, performs the
password-grant exchange (the `authRequest` event), and on success caches
the new token with expiry `now + expires_in * 1000`. -/
def getTokenM (env : Env) (st : TokenState) (now : Int) (resp : AuthResponse) :
    List ApiEvent × Except String (String × TokenState) :=
  if jsTruthyOptStr st.accessToken = true ∧ now < st.tokenExpiry - TOKEN_MARGIN_MS then
    ([], .ok (st.accessToken.getD "", st))
  else
    match getCredentials env with
    | .error e => ([], .error e)
    | .ok _ =>
      if resp.ok then
        ([.authRequest],
         .ok (resp.access_token,
           { accessToken := some resp.access_token
             tokenExpiry := now + resp.expires_in * 1000 }))
      else
        ([.authRequest], .error ("OAuth2 authentication failed: " ++ resp.errorBody))

/-! ## Request pacing (`lib/api.ts`: `apiGet`, `RATE_DELAY_MS`) -/

/-- `const RATE_DELAY_MS = 600` in `lib/api.ts`. -/
def RATE_DELAY_MS : Nat := 600

/-- Outcome of the data-endpoint fetch inside `apiGet`. -/
structure HttpResponse where
  ok : Bool
  status : Nat
  body : String

/-- The event trace of `apiGet` in `lib/api.ts`: obtain a token (possibly
an auth request), issue the data request, then — only when
`response.ok` — `await sleep(RATE_DELAY_MS)`; a non-ok status throws
before the sleep line is reached. -/
def apiGetTrace (env : Env) (st : TokenState) (now : Int)
    (authResp : AuthResponse) (dataResp : HttpResponse) :
    List ApiEvent × Except String TokenState :=
  match getTokenM env st now authResp with
  | (evs, .error e) => (evs, .error e)
  | (evs, .ok (_token, st')) =>
    if dataResp.ok then
      (evs ++ [.dataRequest, .pace RATE_DELAY_MS], .ok st')
    else
      (evs ++ [.dataRequest],
       .error ("Reddit API error: " ++ toString dataResp.status ++ " " ++ dataResp.body))

/-! ## Cache store (modelled from the spec) -/

/-- Modelled from the spec: the repository's `lib/cache.ts` is not among
the sources (only its callers in `reddit-search.ts` are), so the CacheStore
contract of spec section 4.3 is embedded directly: `set` records the entry
under its key with the store time; `get` is lazily expiring — it compares
`now - storedAt` against the TTL supplied at lookup time and returns
"absent" (`none`, not an error) for an expired or never-stored key. -/
structure CacheStore (α : Type) where
  entries : List (String × Int × α)

def CacheStore.empty (α : Type) : CacheStore α := ⟨[]⟩

/-- Modelled from the spec: `set(key, value)` stores the payload with the
current time as `storedAt`, replacing any previous entry for the key. -/
def CacheStore.set {α : Type} (c : CacheStore α) (key : String) (now : Int)
    (v : α) : CacheStore α :=
  ⟨(key, now, v) :: c.entries.filter (fun e => e.1 != key)⟩

/-- Modelled from the spec: `get(key, ttl)` at time `now` returns the
stored payload unless the entry is absent or `now - storedAt > ttl`. -/
def CacheStore.get {α : Type} (c : CacheStore α) (key : String) (ttl : Int)
    (now : Int) : Option α :=
  match c.entries.find? (fun e => e.1 == key) with
  | none => none
  | some (_, storedAt, v) => if now - storedAt > ttl then none else some v

/-! ## Engagement filtering (`lib/api.ts`: `filterEngagement`;
`reddit-search.ts`: `cmdSearch`) -/

/-- The options object of `filterEngagement`. -/
structure EngagementOpts where
  minUpvotes : Option Int
  minComments : Option Int

/-- `filterEngagement` from `lib/api.ts`: each threshold is applied only
when it is truthy (`opts.minUpvotes && ...`), so an absent or zero
threshold filters nothing. -/
def filterEngagement (posts : List Post) (opts : EngagementOpts) : List Post :=
  posts.filter (fun p =>
    if jsTruthyOptInt opts.minUpvotes && decide (p.upvotes < opts.minUpvotes.getD 0) then
      false
    else if jsTruthyOptInt opts.minComments && decide (p.num_comments < opts.minComments.getD 0) then
      false
    else true)

/-- The filter-application step of `cmdSearch` in `reddit-search.ts`:
`if (minUpvotes) { posts = api.filterEngagement(posts, { minUpvotes }) }` —
the guard itself is JS-truthy, so `--min-upvotes 0` (parsed to `0`) skips
the call entirely. -/
def cmdSearchApplyFilters (posts : List Post) (minUpvotes : Option Int) :
    List Post :=
  if jsTruthyOptInt minUpvotes then
    filterEngagement posts { minUpvotes := minUpvotes, minComments := none }
  else posts

/-! ## Invariant checkers and helper lemmas -/

mutual

/-- Checks the depth invariant of a comment tree: the node's `depth` field
equals the expected level, and every child (when the field is present)
satisfies it at level `expected + 1`. -/
def depthOk : Comment → Nat → Bool
  | .mk _ _ _ _ _ _ d replies, expected =>
    d == expected &&
      (match replies with
       | none => true
       | some cs => depthOkList cs (expected + 1))

def depthOkList : List Comment → Nat → Bool
  | [], _ => true
  | c :: cs, d => depthOk c d && depthOkList cs d

end

mutual

/-- Every depth value occurring anywhere in a comment tree, root first. -/
def collectDepths : Comment → List Nat
  | .mk _ _ _ _ _ _ d replies =>
    d :: (match replies with
          | none => []
          | some cs => collectDepthsList cs)

def collectDepthsList : List Comment → List Nat
  | [] => []
  | c :: cs => collectDepths c ++ collectDepthsList cs

end

theorem parseChildren_eq_filter_map (cs : List RawCommentNode) (d : Nat) :
    parseChildren cs d =
      (cs.filter (fun c => c.kind == "t1")).map (fun c => parseComment c d) := by
  induction cs with
  | nil => simp [parseChildren]
  | cons c cs ih =>
    by_cases h : c.kind = "t1" <;>
      simp [parseChildren, List.filter_cons, h, ih]

theorem parseChildren_eq_filterMap (cs : List RawCommentNode) (d : Nat) :
    parseChildren cs d =
      cs.filterMap (fun c =>
        if c.kind == "t1" then some (parseComment c d) else none) := by
  induction cs with
  | nil => simp [parseChildren]
  | cons c cs ih =>
    by_cases h : c.kind = "t1" <;>
      simp [parseChildren, List.filterMap_cons, h, ih]

mutual

theorem depthOk_parseComment (raw : RawCommentNode) (d : Nat) :
    depthOk (parseComment raw d) d = true := by
  match raw with
  | .mk k id body author cu ups score replies =>
    cases replies with
    | absent => simp [parseComment, depthOk]
    | noData => simp [parseComment, depthOk]
    | noChildren => simp [parseComment, depthOk]
    | listing children =>
      simp only [parseComment, depthOk]
      simp [depthOk_parseChildren children (d + 1)]

theorem depthOk_parseChildren (cs : List RawCommentNode) (d : Nat) :
    depthOkList (parseChildren cs d) d = true := by
  match cs with
  | [] => simp [parseChildren, depthOkList]
  | c :: rest =>
    by_cases h : c.kind = "t1"
    · simp [parseChildren, h, depthOkList, depthOk_parseComment c d,
        depthOk_parseChildren rest d]
    · simp [parseChildren, h, depthOk_parseChildren rest d]

end

theorem getTokenM_events (env : Env) (st : TokenState) (now : Int)
    (resp : AuthResponse) :
    (getTokenM env st now resp).1 = [] ∨
      (getTokenM env st now resp).1 = [ApiEvent.authRequest] := by
  unfold getTokenM
  split
  · exact Or.inl rfl
  · cases getCredentials env with
    | error e => exact Or.inl rfl
    | ok _ =>
      by_cases h : resp.ok <;> simp [h]

/-! ## Concrete example payloads used in theorems and witnesses -/

/-- A load-more placeholder child (`kind = "more"`). -/
def moreNode : RawCommentNode := .mk "more" "m1" none none 0 none none .absent

/-- A `t1` comment whose replies listing exists but holds only a
load-more placeholder. -/
def onlyMoreNode : RawCommentNode :=
  .mk "t1" "c0" (some "body") (some "alice") 100 (some 5) (some 5)
    (.listing [moreNode])

/-- Deepest level of the 3-level payload: a placeholder. -/
def deep3Leaf : RawCommentNode := .mk "more" "m2" none none 0 none none .absent

/-- Middle level of the 3-level payload: a real comment whose replies hold
only the placeholder. -/
def deep3Child : RawCommentNode :=
  .mk "t1" "c1" (some "child") (some "bob") 2 (some 1) (some 1)
    (.listing [deep3Leaf])

/-- Top level of the 3-level payload. -/
def deep3Root : RawCommentNode :=
  .mk "t1" "c0" (some "root") (some "alice") 1 (some 2) (some 2)
    (.listing [deep3Child])

/-- A raw post lacking `ups`, `num_comments`, `over_18` and `author`. -/
def rawPostNoOpt : RawPostData :=
  { id := "p1", title := some "T", selftext := some "B", author := none
    subreddit := "r", created_utc := 10, url := none, permalink := "/r/x/1"
    ups := none, num_comments := none, score := some 3, over_18 := none }

/-! ## Claims about the response mapper -/

/-- C6: `parsePost` fills missing optional fields with fixed defaults —
title and body text become the empty string, the author becomes
"[deleted]", the engagement counters become 0, and the adult flag becomes
false. -/
theorem parsePost_defaults (raw : RawPost) :
    (raw.unwrap.title = none → (parsePost raw).title = "")
  ∧ (raw.unwrap.selftext = none → (parsePost raw).selftext = "")
  ∧ (raw.unwrap.author = none → (parsePost raw).author = "[deleted]")
  ∧ (raw.unwrap.ups = none → (parsePost raw).upvotes = 0)
  ∧ (raw.unwrap.num_comments = none → (parsePost raw).num_comments = 0)
  ∧ (raw.unwrap.score = none → (parsePost raw).score = 0)
  ∧ (raw.unwrap.over_18 = none → (parsePost raw).over_18 = false) := by
  refine ⟨?_, ?_, ?_, ?_, ?_, ?_, ?_⟩ <;>
    intro h <;> simp [parsePost, jsOrStr, jsOrInt, jsOrBool, h]

/-- Witness for C6: the concrete raw post lacking `ups`, `num_comments`,
`over_18` and `author` maps to upvotes 0, comment count 0, adult flag
false and author "[deleted]". -/
theorem parsePost_defaults_witness :
    (parsePost (.bare rawPostNoOpt)).upvotes = 0 ∧
    (parsePost (.bare rawPostNoOpt)).num_comments = 0 ∧
    (parsePost (.bare rawPostNoOpt)).over_18 = false ∧
    (parsePost (.bare rawPostNoOpt)).author = "[deleted]" :=
  ⟨(parsePost_defaults (.bare rawPostNoOpt)).2.2.2.1 rfl,
   (parsePost_defaults (.bare rawPostNoOpt)).2.2.2.2.1 rfl,
   (parsePost_defaults (.bare rawPostNoOpt)).2.2.2.2.2.2 rfl,
   (parsePost_defaults (.bare rawPostNoOpt)).2.2.1 rfl⟩

/-- C9: `parsePost` maps a Thing wrapper `{kind, data}` and the unwrapped
data object to the same record, and `post_url` is derived from the
permalink — two inputs differing only in their upstream `url` field get
the same `post_url`. -/
theorem parsePost_dual_shape (k : String) (d : RawPostData)
    (u u' : Option String) :
    parsePost (.thing k d) = parsePost (.bare d)
  ∧ (parsePost (.thing k d)).post_url = "https://reddit.com" ++ d.permalink
  ∧ (parsePost (.bare { d with url := u })).post_url =
      (parsePost (.bare { d with url := u' })).post_url :=
  ⟨rfl, rfl, rfl⟩

/-- C2 counterexample: a node whose replies listing exists but holds only
a load-more placeholder yields `replies = some []` — the field is present
as an empty list, not absent as the claim states. -/
theorem parseComment_only_more_replies_present :
    (parseComment onlyMoreNode 0).replies = some [] ∧
      (parseComment onlyMoreNode 0).replies ≠ none := by
  refine ⟨?_, ?_⟩ <;>
    simp [onlyMoreNode, moreNode, parseComment, parseChildren,
      Comment.replies, RawCommentNode.kind]

/-- C2 (amended): the replies field is absent exactly when the raw
`replies` guard fails (`replies` falsy, or without `data`, or without
`children`); when the replies listing structurally exists, the field is
present — as the filtered children mapped at `depth + 1`, hence as an
empty list when no child is an actual comment. -/
theorem parseComment_replies_presence (k id : String)
    (body author : Option String) (cu : Int) (ups score : Option Int)
    (r : JsReplies RawCommentNode) (d : Nat) :
    ((r = .absent ∨ r = .noData ∨ r = .noChildren) →
      (parseComment (.mk k id body author cu ups score r) d).replies = none)
  ∧ (∀ cs, r = .listing cs →
      (parseComment (.mk k id body author cu ups score r) d).replies =
        some ((cs.filter (fun c => c.kind == "t1")).map
          (fun c => parseComment c (d + 1)))) := by
  constructor
  · rintro (rfl | rfl | rfl) <;> simp [parseComment, Comment.replies]
  · rintro cs rfl
    simp [parseComment, Comment.replies, parseChildren_eq_filter_map]

/-- Witness for C2: concrete instances of both branches — replies absent
when the raw field is falsy, present-and-empty for a listing with no
qualifying child. -/
theorem parseComment_replies_presence_witness :
    (parseComment (.mk "t1" "w2" none none 0 none none .absent) 0).replies =
      none ∧
    (parseComment (.mk "t1" "w2b" none none 0 none none (.listing [])) 0).replies =
      some [] :=
  ⟨(parseComment_replies_presence "t1" "w2" none none 0 none none .absent 0).1
     (Or.inl rfl),
   by
    have h := (parseComment_replies_presence "t1" "w2b" none none 0 none none
      (.listing []) 0).2 [] rfl
    simpa using h⟩

/-- C5: for a node whose replies listing exists, the children are exactly
the kind-`t1` children mapped at `depth + 1` — no `Comment` is produced
for a placeholder — and the concrete 3-level payload with a placeholder at
the deepest level maps to depths exactly 0 and 1. -/
theorem parseComment_placeholder_filtering (k id : String)
    (body author : Option String) (cu : Int) (ups score : Option Int)
    (cs : List RawCommentNode) (d : Nat) :
    (parseComment (.mk k id body author cu ups score (.listing cs)) d).replies =
      some (cs.filterMap (fun c =>
        if c.kind == "t1" then some (parseComment c (d + 1)) else none))
  ∧ collectDepths (parseComment deep3Root 0) = [0, 1] := by
  constructor
  · simp [parseComment, Comment.replies, parseChildren_eq_filterMap]
  · simp [deep3Root, deep3Child, deep3Leaf, parseComment, parseChildren,
      collectDepths, collectDepthsList, RawCommentNode.kind]

/-- C10: `filterEngagement` with a zero `minUpvotes` (or `minComments`)
threshold returns the input unchanged, and the `cmdSearch` filter step
with `--min-upvotes 0` also leaves the posts unchanged. -/
theorem filterEngagement_zero_threshold (posts : List Post) :
    filterEngagement posts { minUpvotes := some 0, minComments := none } = posts
  ∧ filterEngagement posts { minUpvotes := none, minComments := some 0 } = posts
  ∧ cmdSearchApplyFilters posts (some 0) = posts := by
  refine ⟨?_, ?_, ?_⟩ <;>
    simp [filterEngagement, cmdSearchApplyFilters, jsTruthyOptInt]

/-! ## Claims about the thread operation -/

/-- The post of the concrete thread example. -/
def exThreadPost : RawPostData :=
  { id := "p9", title := some "Hello", selftext := none, author := some "alice"
    subreddit := "prog", created_utc := 5, url := some "https://example.org"
    permalink := "/r/prog/9", ups := some 10, num_comments := some 2
    score := some 10, over_18 := some false }

def exT1a : RawCommentNode :=
  .mk "t1" "a" (some "first") (some "bob") 6 (some 3) (some 3) .absent

def exT1b : RawCommentNode :=
  .mk "t1" "b" (some "second") (some "eve") 7 (some 1) (some 1) .absent

def exMore : RawCommentNode := .mk "more" "m" none none 0 none none .absent

/-- Two-element thread response: element 0 has one child, element 1 has
two `t1` children and one non-`t1` child. -/
def exThreadResp : ThreadResponse :=
  { postChildren := [.thing "t3" exThreadPost]
    commentChildren := some [exT1a, exT1b, exMore] }

/-- C4: the thread operation returns as the post exactly the first child
of the first listing mapped through `parsePost`, and as comments exactly
the kind-`t1` children of the second listing mapped at depth 0; on the
concrete two-element response the result has one post and exactly the two
`t1` comments, both at depth 0. -/
theorem thread_unwrap (p : RawPost) (rest : List RawPost)
    (cs : List RawCommentNode) :
    threadMap { postChildren := p :: rest, commentChildren := some cs } =
      some (parsePost p,
        cs.filterMap (fun c =>
          if c.kind == "t1" then some (parseComment c 0) else none))
  ∧ threadMap exThreadResp =
      some (parsePost (.thing "t3" exThreadPost),
        [parseComment exT1a 0, parseComment exT1b 0])
  ∧ (parseComment exT1a 0).depth = 0 ∧ (parseComment exT1b 0).depth = 0 := by
  refine ⟨?_, ?_, rfl, rfl⟩
  · simp only [threadMap, Option.getD_some]
    rw [← parseChildren_eq_filter_map, parseChildren_eq_filterMap]
  · simp [threadMap, exThreadResp, exT1a, exT1b, exMore, RawCommentNode.kind]

/-- C8: every comment forest produced by the thread operation satisfies
the depth invariant — each top-level comment has depth 0 and every child's
depth is its parent's depth plus exactly 1. -/
theorem thread_depth_invariant (resp : ThreadResponse) (post : Post)
    (comments : List Comment)
    (h : threadMap resp = some (post, comments)) :
    depthOkList comments 0 = true := by
  match hp : resp.postChildren with
  | [] => simp [threadMap, hp] at h
  | p :: ps =>
    simp only [threadMap, hp, Option.some.injEq, Prod.mk.injEq] at h
    rw [← h.2, ← parseChildren_eq_filter_map]
    exact depthOk_parseChildren _ 0

/-- Witness for C8: the depth invariant holds on the thread response built
from the concrete 3-level comment payload. -/
theorem thread_depth_invariant_witness :
    depthOkList [parseComment deep3Root 0] 0 = true :=
  thread_depth_invariant
    { postChildren := [.bare exThreadPost], commentChildren := some [deep3Root] }
    (parsePost (.bare exThreadPost)) [parseComment deep3Root 0]
    (by simp [threadMap, deep3Root, RawCommentNode.kind])

/-! ## Claims about the token lifecycle and request pacing -/

/-- An environment with all four secrets present. -/
def exEnv : Env :=
  { clientId := some "cid", clientSecret := some "sec"
    username := some "user", password := some "pw" }

def exCreds : Credentials :=
  { clientId := "cid", clientSecret := "sec", username := "user"
    password := "pw" }

/-- A successful auth exchange: token "tok", one hour of validity. -/
def exAuthOk : AuthResponse :=
  { ok := true, access_token := "tok", token_type := "bearer"
    expires_in := 3600, scope := "all", errorBody := "" }

/-- C3: a cached truthy token with `now < expiresAt - 5min` is returned
without any auth request; in every other case — no cached token, or a
cached token at or past `expiresAt - 5min` — a fresh password-grant
exchange runs and caches expiry `now + expires_in` (seconds, stored in
ms); and two calls within the validity window minus margin perform
exactly one auth request in total. -/
theorem getToken_cache_and_reuse (env : Env) (st : TokenState)
    (c : Credentials) (resp r2 : AuthResponse) (t1 t2 : Int) :
    (jsTruthyOptStr st.accessToken = true →
      t1 < st.tokenExpiry - TOKEN_MARGIN_MS →
      getTokenM env st t1 resp = ([], .ok (st.accessToken.getD "", st)))
  ∧ (¬(jsTruthyOptStr st.accessToken = true ∧
        t1 < st.tokenExpiry - TOKEN_MARGIN_MS) →
      getCredentials env = .ok c → resp.ok = true →
      getTokenM env st t1 resp =
        ([ApiEvent.authRequest],
         .ok (resp.access_token,
           { accessToken := some resp.access_token
             tokenExpiry := t1 + resp.expires_in * 1000 })))
  ∧ (¬(jsTruthyOptStr st.accessToken = true ∧
        t1 < st.tokenExpiry - TOKEN_MARGIN_MS) →
      getCredentials env = .ok c → resp.ok = true →
      resp.access_token ≠ "" →
      t2 < (t1 + resp.expires_in * 1000) - TOKEN_MARGIN_MS →
      (getTokenM env st t1 resp).1 ++
        (getTokenM env
          { accessToken := some resp.access_token
            tokenExpiry := t1 + resp.expires_in * 1000 } t2 r2).1 =
        [ApiEvent.authRequest]) := by
  refine ⟨?_, ?_, ?_⟩
  · intro h1 h2
    simp [getTokenM, h1, h2]
  · intro hmiss hc hok
    unfold getTokenM
    rw [if_neg hmiss, hc]
    simp [hok]
  · intro hmiss hc hok htok hwin
    have h1 : (getTokenM env st t1 resp).1 = [ApiEvent.authRequest] := by
      unfold getTokenM
      rw [if_neg hmiss, hc]
      simp [hok]
    have h2 : (getTokenM env
        { accessToken := some resp.access_token
          tokenExpiry := t1 + resp.expires_in * 1000 } t2 r2).1 = [] := by
      simp [getTokenM, jsTruthyOptStr, htok, hwin]
    rw [h1, h2]
    rfl

/-- Witness for C3: from a state holding a cached token whose expiry is
already within the 5-minute margin (the refresh case), a call at time 0
followed by a call at time 1000000 (inside the fresh one-hour window
minus the margin) issues exactly one auth request. -/
theorem getToken_cache_and_reuse_witness :
    (getTokenM exEnv { accessToken := some "old", tokenExpiry := 200000 }
        0 exAuthOk).1 ++
      (getTokenM exEnv
        { accessToken := some exAuthOk.access_token
          tokenExpiry := 0 + exAuthOk.expires_in * 1000 } 1000000 exAuthOk).1 =
      [ApiEvent.authRequest] :=
  (getToken_cache_and_reuse exEnv
      { accessToken := some "old", tokenExpiry := 200000 }
      exCreds exAuthOk exAuthOk 0 1000000).2.2
    (by decide) rfl rfl (by decide) (by decide)

/-- C1 counterexample: at a concrete non-success data response (HTTP 404)
the `apiGet` trace contains no pace step at all — the error is thrown
before the `sleep(RATE_DELAY_MS)` line, contradicting the claim that
pacing also happens on non-success status. -/
theorem apiGet_no_pace_on_error :
    ApiEvent.pace RATE_DELAY_MS ∉
      (apiGetTrace exEnv initialTokenState 0 exAuthOk
        { ok := false, status := 404, body := "not found" }).1 := by
  decide

/-- C1 (amended): when the token is obtained, the pace step (600 ms) runs
immediately after the data request exactly when the response has success
status; on a non-success status the trace ends at the data request and
contains no pace step. -/
theorem apiGet_pace_placement (env : Env) (st : TokenState) (now : Int)
    (authResp : AuthResponse) (dataResp : HttpResponse) (tok : String)
    (st' : TokenState) (evs : List ApiEvent)
    (htok : getTokenM env st now authResp = (evs, .ok (tok, st'))) :
    (dataResp.ok = true →
      apiGetTrace env st now authResp dataResp =
        (evs ++ [.dataRequest, .pace RATE_DELAY_MS], .ok st'))
  ∧ (dataResp.ok = false →
      (apiGetTrace env st now authResp dataResp).1 = evs ++ [.dataRequest] ∧
        ApiEvent.pace RATE_DELAY_MS ∉
          (apiGetTrace env st now authResp dataResp).1) := by
  have hevs : evs = [] ∨ evs = [ApiEvent.authRequest] := by
    have h := getTokenM_events env st now authResp
    rwa [htok] at h
  constructor
  · intro hok
    simp [apiGetTrace, htok, hok]
  · intro hnot
    constructor
    · simp [apiGetTrace, htok, hnot]
    · simp only [apiGetTrace, htok, hnot]
      rcases hevs with rfl | rfl <;> simp

/-- Witness for C1 (amended): a fresh token at time 0 and a successful
data fetch produce the trace auth request, data request, pace 600 ms. -/
theorem apiGet_pace_placement_witness :
    apiGetTrace exEnv initialTokenState 0 exAuthOk
        { ok := true, status := 200, body := "body" } =
      ([ApiEvent.authRequest, ApiEvent.dataRequest,
        ApiEvent.pace RATE_DELAY_MS],
       .ok { accessToken := some exAuthOk.access_token
             tokenExpiry := 0 + exAuthOk.expires_in * 1000 }) := by
  have h := (apiGet_pace_placement exEnv initialTokenState 0 exAuthOk
    { ok := true, status := 200, body := "body" }
    exAuthOk.access_token
    { accessToken := some exAuthOk.access_token
      tokenExpiry := 0 + exAuthOk.expires_in * 1000 }
    [ApiEvent.authRequest] (by rfl)).1 rfl
  simpa using h

/-! ## Claim about the cache store (modelled from the spec) -/

/-- C7: a value stored under a key at time `T` is returned by `get` with a
caller-supplied TTL at any lookup time within the TTL, is absent (not an
error) once `now - storedAt` exceeds the TTL, and a never-stored key is
absent as well. -/
theorem cache_get_ttl {α : Type} (c : CacheStore α) (k : String) (v : α)
    (ttl T Tq : Int) :
    (Tq - T ≤ ttl → (c.set k T v).get k ttl Tq = some v)
  ∧ (Tq - T > ttl → (c.set k T v).get k ttl Tq = none)
  ∧ (CacheStore.empty α).get k ttl Tq = none := by
  refine ⟨?_, ?_, ?_⟩
  · intro h
    simp [CacheStore.set, CacheStore.get, List.find?_cons_of_pos]
    omega
  · intro h
    simp [CacheStore.set, CacheStore.get, List.find?_cons_of_pos]
    omega
  · simp [CacheStore.empty, CacheStore.get, List.find?]

/-- Witness for C7: a value stored at time 0 is retrievable with
TTL 900000 ms at time 800000 and absent at time 1000000. -/
theorem cache_get_ttl_witness :
    ((CacheStore.empty Nat).set "k" 0 7).get "k" 900000 800000 = some 7 ∧
    ((CacheStore.empty Nat).set "k" 0 7).get "k" 900000 1000000 = none :=
  ⟨(cache_get_ttl (CacheStore.empty Nat) "k" 7 900000 0 800000).1 (by decide),
   (cache_get_ttl (CacheStore.empty Nat) "k" 7 900000 0 1000000).2.1
     (by decide)⟩
